import Mathlib

/-!
Verification of the SAGE survey backend (`src/backend/backend5.py`).

The backend is a small Flask application over three ChromaDB collections
(surveys, responses, individual analyses).  We give a shallow embedding of
its route handlers as pure Lean functions over an explicit store state.

Modelling conventions, fixed once here:

* JSON values are modelled by the inductive type `Json` below.  Numbers are
  modelled on the integer fragment (every number the backend itself writes is
  an `int`); float literals, `NaN` and `Infinity` are outside the model, as
  are `\uXXXX` escapes denoting surrogate halves.
* `json.dumps` / `json.loads` on the storage path are modelled as the
  identity on parsed values: a collection record stores the `Json` value that
  the Python code would serialise, and reading it back yields that value.
* Python dictionaries are modelled as association lists in insertion order;
  inserting an existing key updates the value in place (as `dict` does).
* External effects are modelled as explicit parameters: the LLM call is an
  `Option String` (`none` models the call raising), the Socket.IO `emit` is a
  `Bool` (`false` models `emit` raising), `uuid.uuid4()` and `time.time()`
  and `request.host_url` are parameters.
* Python `str.strip()` and the regex class `\s` are modelled on their ASCII
  whitespace subsets.
-/

namespace SAGE

/-- JSON values as handled by the Python `json` module in this backend,
restricted to the integer number fragment. -/
inductive Json where
  | null : Json
  | bool : Bool → Json
  | num : Int → Json
  | str : String → Json
  | arr : List Json → Json
  | obj : List (String × Json) → Json

mutual

/-- Structural equality of JSON values. -/
def Json.beq : Json → Json → Bool
  | .null, .null => true
  | .bool a, .bool b => a == b
  | .num a, .num b => a == b
  | .str a, .str b => a == b
  | .arr xs, .arr ys => Json.beqArr xs ys
  | .obj xs, .obj ys => Json.beqObj xs ys
  | _, _ => false

/-- Structural equality of JSON arrays. -/
def Json.beqArr : List Json → List Json → Bool
  | [], [] => true
  | x :: xs, y :: ys => Json.beq x y && Json.beqArr xs ys
  | _, _ => false

/-- Structural equality of JSON object member lists. -/
def Json.beqObj : List (String × Json) → List (String × Json) → Bool
  | (ka, va) :: moreA, (kb, vb) :: moreB =>
    ka == kb && Json.beq va vb && Json.beqObj moreA moreB
  | [], [] => true
  | _, _ => false

end

mutual

theorem Json.eq_of_beq : ∀ {a b : Json}, Json.beq a b = true → a = b
  | .null, .null, _ => rfl
  | .bool _, .bool _, h => by simp only [Json.beq, beq_iff_eq] at h; rw [h]
  | .num _, .num _, h => by simp only [Json.beq, beq_iff_eq] at h; rw [h]
  | .str _, .str _, h => by simp only [Json.beq, beq_iff_eq] at h; rw [h]
  | .arr xs, .arr ys, h => by
      simp only [Json.beq] at h; rw [Json.eqArr_of_beq h]
  | .obj xs, .obj ys, h => by
      simp only [Json.beq] at h; rw [Json.eqObj_of_beq h]
  | .null, .bool _, h => nomatch h
  | .null, .num _, h => nomatch h
  | .null, .str _, h => nomatch h
  | .null, .arr _, h => nomatch h
  | .null, .obj _, h => nomatch h
  | .bool _, .null, h => nomatch h
  | .bool _, .num _, h => nomatch h
  | .bool _, .str _, h => nomatch h
  | .bool _, .arr _, h => nomatch h
  | .bool _, .obj _, h => nomatch h
  | .num _, .null, h => nomatch h
  | .num _, .bool _, h => nomatch h
  | .num _, .str _, h => nomatch h
  | .num _, .arr _, h => nomatch h
  | .num _, .obj _, h => nomatch h
  | .str _, .null, h => nomatch h
  | .str _, .bool _, h => nomatch h
  | .str _, .num _, h => nomatch h
  | .str _, .arr _, h => nomatch h
  | .str _, .obj _, h => nomatch h
  | .arr _, .null, h => nomatch h
  | .arr _, .bool _, h => nomatch h
  | .arr _, .num _, h => nomatch h
  | .arr _, .str _, h => nomatch h
  | .arr _, .obj _, h => nomatch h
  | .obj _, .null, h => nomatch h
  | .obj _, .bool _, h => nomatch h
  | .obj _, .num _, h => nomatch h
  | .obj _, .str _, h => nomatch h
  | .obj _, .arr _, h => nomatch h

theorem Json.eqArr_of_beq : ∀ {xs ys : List Json}, Json.beqArr xs ys = true → xs = ys
  | [], [], _ => rfl
  | x :: xs, y :: ys, h => by
      simp only [Json.beqArr, Bool.and_eq_true] at h
      rw [Json.eq_of_beq h.1, Json.eqArr_of_beq h.2]
  | [], _ :: _, h => nomatch h
  | _ :: _, [], h => nomatch h

theorem Json.eqObj_of_beq :
    ∀ {xs ys : List (String × Json)}, Json.beqObj xs ys = true → xs = ys
  | [], [], _ => rfl
  | (ka, va) :: moreA, (kb, vb) :: moreB, h => by
      simp only [Json.beqObj, Bool.and_eq_true, beq_iff_eq] at h
      rw [h.1.1, Json.eq_of_beq h.1.2, Json.eqObj_of_beq h.2]
  | [], _ :: _, h => nomatch h
  | _ :: _, [], h => nomatch h

end

mutual

theorem Json.beq_rfl : ∀ (a : Json), Json.beq a a = true
  | .null => rfl
  | .bool _ => by simp [Json.beq]
  | .num _ => by simp [Json.beq]
  | .str _ => by simp [Json.beq]
  | .arr xs => by simp only [Json.beq]; exact Json.beqArr_rfl xs
  | .obj xs => by simp only [Json.beq]; exact Json.beqObj_rfl xs

theorem Json.beqArr_rfl : ∀ (xs : List Json), Json.beqArr xs xs = true
  | [] => rfl
  | x :: xs => by
      simp only [Json.beqArr, Bool.and_eq_true]
      exact ⟨Json.beq_rfl x, Json.beqArr_rfl xs⟩

theorem Json.beqObj_rfl : ∀ (xs : List (String × Json)), Json.beqObj xs xs = true
  | [] => rfl
  | (k, v) :: xs => by
      simp only [Json.beqObj, Bool.and_eq_true, beq_self_eq_true, true_and]
      exact ⟨Json.beq_rfl v, Json.beqObj_rfl xs⟩

end

instance : DecidableEq Json := fun a b =>
  if h : Json.beq a b = true then
    isTrue (Json.eq_of_beq h)
  else
    isFalse (fun he => h (by rw [he]; exact Json.beq_rfl b))

/-- Lookup of a key in an association list, first occurrence wins
(Python `dict` association lists built below never hold duplicate keys). -/
def jsonLookup (kvs : List (String × Json)) (k : String) : Option Json :=
  (kvs.find? (fun p => p.1 = k)).map (fun p => p.2)

/-- Python `d[k] = v` on an insertion-ordered dictionary: if the key is
present its value is updated in place, otherwise the pair is appended. -/
def dictSet (kvs : List (String × Json)) (k : String) (v : Json) : List (String × Json) :=
  if kvs.any (fun p => p.1 = k) then
    kvs.map (fun p => if p.1 = k then (k, v) else p)
  else
    kvs ++ [(k, v)]

/-- Python `{**a, **b}`: start from `a` and set every pair of `b` in order. -/
def dictMerge (a b : List (String × Json)) : List (String × Json) :=
  b.foldl (fun acc p => dictSet acc p.1 p.2) a

/-- Python truthiness of a JSON value (`if not x` tests). -/
def pyTruthy : Json → Bool
  | .null => false
  | .bool b => b
  | .num n => n != 0
  | .str s => s ≠ ""
  | .arr xs => !xs.isEmpty
  | .obj kvs => !kvs.isEmpty

/-! ### A model of `json.loads`

Recursive-descent parser for the JSON grammar accepted by Python's `json`
module, restricted as announced above: numbers are integer literals
(no fraction, exponent, `NaN` or `Infinity`), and `\uXXXX` escapes must not
denote surrogate halves.  Duplicate object keys follow `dict` semantics:
the value is updated in place, keeping the first occurrence's position. -/

/-- Whitespace accepted by the JSON grammar between tokens. -/
def isJsonWs (c : Char) : Bool := c == ' ' || c == '\t' || c == '\n' || c == '\r'

/-- Skip inter-token whitespace. -/
def skipWs (l : List Char) : List Char := l.dropWhile isJsonWs

/-- Value of one hexadecimal digit. -/
def hexVal (c : Char) : Option Nat :=
  if '0' ≤ c ∧ c ≤ '9' then some (c.toNat - 48)
  else if 'a' ≤ c ∧ c ≤ 'f' then some (c.toNat - 87)
  else if 'A' ≤ c ∧ c ≤ 'F' then some (c.toNat - 55)
  else none

/-- Body of a JSON string literal, after the opening quote.  `acc` holds the
decoded characters in reverse.  Raw control characters are rejected (strict
mode), unknown escapes are rejected, `\uXXXX` surrogate halves are outside
the model. -/
def parseStrBody : List Char → List Char → Option (String × List Char)
  | _, [] => none
  | acc, '"' :: r => some (String.mk acc.reverse, r)
  | acc, '\\' :: '"' :: r => parseStrBody ('"' :: acc) r
  | acc, '\\' :: '\\' :: r => parseStrBody ('\\' :: acc) r
  | acc, '\\' :: '/' :: r => parseStrBody ('/' :: acc) r
  | acc, '\\' :: 'b' :: r => parseStrBody ('\x08' :: acc) r
  | acc, '\\' :: 'f' :: r => parseStrBody ('\x0c' :: acc) r
  | acc, '\\' :: 'n' :: r => parseStrBody ('\n' :: acc) r
  | acc, '\\' :: 'r' :: r => parseStrBody ('\r' :: acc) r
  | acc, '\\' :: 't' :: r => parseStrBody ('\t' :: acc) r
  | acc, '\\' :: 'u' :: h₁ :: h₂ :: h₃ :: h₄ :: r =>
    (match hexVal h₁, hexVal h₂, hexVal h₃, hexVal h₄ with
     | some a, some b, some c, some d =>
       let n := ((a * 16 + b) * 16 + c) * 16 + d
       if 0xD800 ≤ n ∧ n ≤ 0xDFFF then none
       else parseStrBody (Char.ofNat n :: acc) r
     | _, _, _, _ => none)
  | _, '\\' :: _ => none
  | acc, c :: r => if c.toNat < 32 then none else parseStrBody (c :: acc) r

/-- Longest run of decimal digits. -/
def takeDigits : List Char → List Char × List Char
  | [] => ([], [])
  | c :: r =>
    if c.isDigit then
      let p := takeDigits r
      (c :: p.1, p.2)
    else ([], c :: r)

/-- Numeric value of a digit run. -/
def digitsToNat (ds : List Char) : Nat := ds.foldl (fun n c => n * 10 + (c.toNat - 48)) 0

/-- Unsigned JSON integer literal: `0`, or a nonzero digit then a digit run. -/
def parseNatLit : List Char → Option (Nat × List Char)
  | '0' :: r => some (0, r)
  | c :: r =>
    if c.isDigit then
      let p := takeDigits r
      some (digitsToNat (c :: p.1), p.2)
    else none
  | [] => none

/-- JSON integer literal with optional leading minus sign. -/
def parseIntLit : List Char → Option (Int × List Char)
  | '-' :: r => (parseNatLit r).map (fun p => (-(p.1 : Int), p.2))
  | l => (parseNatLit l).map (fun p => ((p.1 : Int), p.2))

mutual

/-- Parse one JSON value, returning it and the unconsumed remainder. -/
def parseValue : Nat → List Char → Option (Json × List Char)
  | 0, _ => none
  | fuel + 1, l =>
    match skipWs l with
    | 'n' :: 'u' :: 'l' :: 'l' :: r => some (.null, r)
    | 't' :: 'r' :: 'u' :: 'e' :: r => some (.bool true, r)
    | 'f' :: 'a' :: 'l' :: 's' :: 'e' :: r => some (.bool false, r)
    | '"' :: r =>
      match parseStrBody [] r with
      | some (s, r') => some (.str s, r')
      | none => none
    | '[' :: r =>
      (match skipWs r with
       | ']' :: r' => some (.arr [], r')
       | r' => parseArrItems fuel [] r')
    | '{' :: r =>
      (match skipWs r with
       | '}' :: r' => some (.obj [], r')
       | r' => parseObjItems fuel [] r')
    | l' =>
      match parseIntLit l' with
      | some (n, r) => some (.num n, r)
      | none => none

/-- Parse the remaining items of a non-empty JSON array. -/
def parseArrItems : Nat → List Json → List Char → Option (Json × List Char)
  | 0, _, _ => none
  | fuel + 1, acc, l =>
    match parseValue fuel l with
    | none => none
    | some (v, r) =>
      match skipWs r with
      | ',' :: r' => parseArrItems fuel (v :: acc) r'
      | ']' :: r' => some (.arr (v :: acc).reverse, r')
      | _ => none

/-- Parse the remaining members of a non-empty JSON object. -/
def parseObjItems : Nat → List (String × Json) → List Char → Option (Json × List Char)
  | 0, _, _ => none
  | fuel + 1, acc, l =>
    match skipWs l with
    | '"' :: r =>
      (match parseStrBody [] r with
       | none => none
       | some (k, r₁) =>
         match skipWs r₁ with
         | ':' :: r₂ =>
           (match parseValue fuel r₂ with
            | none => none
            | some (v, r₃) =>
              match skipWs r₃ with
              | ',' :: r₄ => parseObjItems fuel (dictSet acc k v) r₄
              | '}' :: r₄ => some (.obj (dictSet acc k v), r₄)
              | _ => none)
         | _ => none)
    | _ => none

end

/-- Model of `json.loads` on a character list: one value, then only
whitespace may remain.  The fuel is generous: every unit of recursion
consumes at least one character of input. -/
def loadsChars (l : List Char) : Option Json :=
  match parseValue (2 * l.length + 2) l with
  | some (v, r) => if (skipWs r).isEmpty then some v else none
  | none => none

/-- Model of `json.loads` on a string. -/
def pyJsonLoads (s : String) : Option Json := loadsChars s.toList

/-! ### Python string helpers -/

/-- Whitespace as stripped by Python `str.strip()` and matched by the regex
class `\s`, modeled on the ASCII subset. -/
def isPySpace (c : Char) : Bool :=
  c == ' ' || c == '\t' || c == '\n' || c == '\r' || c == '\x0b' || c == '\x0c'

/-- Python `str.strip()`. -/
def pyStrip (s : String) : String :=
  String.mk (((s.toList.dropWhile isPySpace).reverse.dropWhile isPySpace).reverse)

example : pyJsonLoads "\x7b\"a\": 1\x7d" = some (Json.obj [("a", Json.num 1)]) := rfl

example : pyJsonLoads " [1, -25, \"x\", true, null] " =
    some (Json.arr [Json.num 1, Json.num (-25), Json.str "x", Json.bool true, Json.null]) := rfl

example : pyJsonLoads "\x7b\"a\": 1, \"b\": [2], \"a\": 3\x7d" =
    some (Json.obj [("a", Json.num 3), ("b", Json.arr [Json.num 2])]) := rfl

example : pyJsonLoads "\x7b\"a\": 1\x7d extra" = none := rfl

example : pyJsonLoads "[1,]" = none := rfl

example : pyJsonLoads "" = none := rfl

example : pyJsonLoads "\x7b\"q\": \"a\\nb\"\x7d" =
    some (Json.obj [("q", Json.str "a\nb")]) := rfl

example : pyStrip "  hi there\n" = "hi there" := rfl

example : pyStrip " \t " = "" := rfl

/-! ### A model of `extract_json_like` (backend5.py lines 178-192)

The Python helper first runs
`re.search(r'<fence>json\s*(\{.*\})\s*<fence>', s, re.DOTALL)` (where
`<fence>` is three backticks) and tries `json.loads` on the captured group;
on failure it tries `json.loads(s[s.index(ob) : s.rindex(cb) + 1])` (with
`ob`/`cb` the braces), and returns `None` when that also fails.

The regex semantics are modelled exactly: the engine picks the leftmost
start position where the whole pattern matches; `\s*` before `\{` and after
`\}` is forced to the maximal whitespace run (no whitespace character can
begin `\{` or the backtick fence, so backtracking never shortens it); the
greedy `.*` under `DOTALL` extends the group to the last closing brace that
is followed by whitespace and a fence. -/

/-- Does the second list start with the first one? -/
def leadsWith : List Char → List Char → Bool
  | [], _ => true
  | _ :: _, [] => false
  | p :: ps, c :: cs => p == c && leadsWith ps cs

/-- Three backticks. -/
def fenceMarker : List Char := "```".toList

/-- The opening fence of the pattern. -/
def fenceOpen : List Char := "```json".toList

/-- Does `l` begin with optional whitespace and then a closing fence?
This is the forced reading of `\s*` and the final fence of the pattern. -/
def fenceClose (l : List Char) : Bool := leadsWith fenceMarker (l.dropWhile isPySpace)

/-- Indices `j` of `l` holding a closing brace that is followed by
whitespace and a fence (in ascending order). -/
def closeIdxs (l : List Char) : List Nat :=
  (List.range l.length).filter
    (fun j => (l.getD j ' ' == '}') && fenceClose (l.drop (j + 1)))

/-- Greedy reading of `(\{.*\})\s*` and the closing fence, for a tail `l₁`
that starts at the opening brace: the group runs to the largest eligible
closing brace. -/
def greedyCaptureFrom (l₁ : List Char) : Option (List Char) :=
  match ((closeIdxs l₁).filter (fun j => decide (1 ≤ j))).getLast? with
  | some j => some (l₁.take (j + 1))
  | none => none

/-- One match attempt of the fence pattern at the head of `l`. -/
def tryFenceAt (l : List Char) : Option (List Char) :=
  if leadsWith fenceOpen l then
    match (l.drop 7).dropWhile isPySpace with
    | '{' :: rest => greedyCaptureFrom ('{' :: rest)
    | _ => none
  else none

/-- `re.search`: the first start position with a full match wins. -/
def fenceSearch : List Char → Option (List Char)
  | [] => none
  | c :: rest =>
    match tryFenceAt (c :: rest) with
    | some g => some g
    | none => fenceSearch rest

/-- Index of the last occurrence of `c` in `l` (Python `str.rindex`). -/
def lastIdxOf (c : Char) (l : List Char) : Option Nat :=
  match l.reverse.findIdx? (fun x => x == c) with
  | some k => some (l.length - 1 - k)
  | none => none

/-- The second attempt of `extract_json_like`: parse the substring from the
first opening brace to the last closing brace; `None` when either brace is
absent (Python `index`/`rindex` raising `ValueError`) or the slice does not
parse. -/
def fallbackSlice (l : List Char) : Option Json :=
  match l.findIdx? (fun x => x == '{'), lastIdxOf '}' l with
  | some s, some e => loadsChars ((l.drop s).take (e + 1 - s))
  | _, _ => none

/-- Shallow embedding of `extract_json_like` (backend5.py lines 178-192). -/
def extract_json_like (s : String) : Option Json :=
  match fenceSearch s.toList with
  | some cap =>
    match loadsChars cap with
    | some v => some v
    | none => fallbackSlice s.toList
  | none => fallbackSlice s.toList

/-- Minimal (non-greedy) reading of the fenced block, following the claim's
words "the first code-fenced block": the group stops at the first
eligible closing brace. -/
def minimalCaptureFrom (l₁ : List Char) : Option (List Char) :=
  match ((closeIdxs l₁).filter (fun j => decide (1 ≤ j))).head? with
  | some j => some (l₁.take (j + 1))
  | none => none

/-- One match attempt of the claim's "first fenced block" reading. -/
def tryFirstBlockAt (l : List Char) : Option (List Char) :=
  if leadsWith fenceOpen l then
    match (l.drop 7).dropWhile isPySpace with
    | '{' :: rest => minimalCaptureFrom ('{' :: rest)
    | _ => none
  else none

/-- The first complete fenced block of the input, per the claim's words. -/
def firstBlockSearch : List Char → Option (List Char)
  | [] => none
  | c :: rest =>
    match tryFirstBlockAt (c :: rest) with
    | some g => some g
    | none => firstBlockSearch rest

example : extract_json_like "reply: ```json\n\x7b\"a\": 1\x7d\n``` done" =
    some (Json.obj [("a", Json.num 1)]) := rfl

example : extract_json_like "text \x7b\"a\": 1\x7d more" =
    some (Json.obj [("a", Json.num 1)]) := rfl

example : extract_json_like "no json here" = none := rfl

example : extract_json_like "```json \x7bbroken\x7d ``` but \x7b\"ok\": 0\x7d" =
    none := rfl

example : extract_json_like "pre ```json \x7b\"k\": [1, 2]\x7d\n```" =
    some (Json.obj [("k", Json.arr [Json.num 1, Json.num 2])]) := rfl

/-! ### The store and the route handlers

A ChromaDB collection record is (id, document, metadata); `add` appends a
record, `get(ids=[x])` filters by id, `get(where={"survey_id": x})` filters
by exact metadata match, plain `get()` enumerates in storage order.  The
model does not re-impose Chroma's duplicate-id and scalar-metadata-value
checks (both raise in Python and would reach the blanket handlers), so
theorems about persisted records take the corresponding hypotheses where it
matters.  Serialisation on the storage path (`json.dumps` on write,
`json.loads` on read) is modelled as the identity on the parsed value. -/

structure DbRecord where
  rid : String
  doc : Json
  meta : List (String × Json)
deriving DecidableEq

structure Store where
  surveys : List DbRecord
  responses : List DbRecord
  analyses : List DbRecord
deriving DecidableEq

structure HttpResponse where
  status : Nat
  body : Json
deriving DecidableEq

/-- Which external collaborators an operation reached. -/
structure Effects where
  llmCalled : Bool
  emitDelivered : Bool
deriving DecidableEq

/-- The `"AI failed to generate a valid survey."` 500 response, which carries
the raw LLM text. -/
def aiFailSurvey (raw : String) : HttpResponse :=
  ⟨500, Json.obj [("error", Json.str "AI failed to generate a valid survey."),
                  ("raw_response", Json.str raw)]⟩

/-- The blanket `except` 500 response of `create_survey`. -/
def internalErrSurvey : HttpResponse :=
  ⟨500, Json.obj [("error", Json.str "Internal server error during survey creation.")]⟩

/-- The metadata dictionary `create_survey` persists alongside the survey
document (backend5.py lines 217-221). -/
def createMeta (hostUrl : String) (now : Int) (newId userPrompt : String)
    (kvs : List (String × Json)) : List (String × Json) :=
  [("survey_id", Json.str newId),
   ("user_prompt", Json.str userPrompt),
   ("title", (jsonLookup kvs "title").getD (Json.str "AI Survey")),
   ("description", (jsonLookup kvs "description").getD (Json.str "")),
   ("public_url", Json.str (hostUrl ++ "survey/" ++ newId)),
   ("created_at", Json.num now)]

/-- Shallow embedding of the `create_survey` route handler (backend5.py lines
204-229).  `hostUrl` models `request.host_url`, `now` models
`int(time.time())`, `newId` models `str(uuid.uuid4())`, `llm` is the outcome
of `llm.invoke(...).content` (`none`: the call raised), and `emitOk` is the
outcome of `socketio.emit` (`false`: it raised; the exception reaches the
handler's blanket `except` clause after the record was already added).  The
non-object branch after extraction is unreachable (`extract_json_like` only
returns objects); in Python it would raise in the `in` test and reach the
blanket handler, which is how it is modelled. -/
def create_survey (hostUrl : String) (now : Int) (newId : String)
    (llm : Option String) (emitOk : Bool) (prompt : String) (st : Store) :
    HttpResponse × Store × Effects :=
  let userPrompt := pyStrip prompt
  if userPrompt = "" then
    (⟨400, Json.obj [("error", Json.str "Prompt cannot be empty")]⟩, st, ⟨false, false⟩)
  else
    match llm with
    | none => (internalErrSurvey, st, ⟨true, false⟩)
    | some llmResponse =>
      match extract_json_like llmResponse with
      | none => (aiFailSurvey llmResponse, st, ⟨true, false⟩)
      | some j =>
        if !(pyTruthy j) then (aiFailSurvey llmResponse, st, ⟨true, false⟩)
        else
          match j with
          | Json.obj kvs =>
            match jsonLookup kvs "questions" with
            | none => (aiFailSurvey llmResponse, st, ⟨true, false⟩)
            | some _ =>
              let metadata := createMeta hostUrl now newId userPrompt kvs
              let st' := { st with surveys := st.surveys ++ [⟨newId, Json.obj kvs, metadata⟩] }
              if emitOk then
                (⟨200, Json.obj [("survey_id", Json.str newId),
                                 ("public_url", Json.str (hostUrl ++ "survey/" ++ newId)),
                                 ("structure", Json.obj kvs)]⟩, st', ⟨true, true⟩)
              else (internalErrSurvey, st', ⟨true, false⟩)
          | _ => (internalErrSurvey, st, ⟨true, false⟩)

/-- Shallow embedding of the `display_survey` route handler (backend5.py
lines 232-243): exact-id lookup, a 404 when the id resolves to no document.
Rendering the HTML form is a pure function of the parsed structure (an
excluded collaborator), so the model returns the parsed structure itself as
the 200 body. -/
def display_survey (sid : String) (st : Store) : HttpResponse :=
  match st.surveys.find? (fun r => r.rid == sid) with
  | none => ⟨404, Json.str "404: Survey not found"⟩
  | some r => ⟨200, r.doc⟩

/-- Shallow embedding of the `submit_survey_response` route handler
(backend5.py lines 264-280).  `answers` is the request body's `"responses"`
field (`Json.obj []` when absent, Python's `data.get("responses", {})`);
note the handler never consults `st.surveys`. -/
def submit_survey_response (now : Int) (newId : String) (emitOk : Bool)
    (sid : String) (answers : Json) (st : Store) : HttpResponse × Store × Effects :=
  if !(pyTruthy answers) then
    (⟨400, Json.obj [("error", Json.str "No responses provided")]⟩, st, ⟨false, false⟩)
  else
    let st' := { st with responses :=
      st.responses ++ [⟨newId, answers,
        [("survey_id", Json.str sid), ("timestamp", Json.num now)]⟩] }
    if emitOk then
      (⟨200, Json.obj [("success", Json.bool true), ("response_id", Json.str newId)]⟩,
       st', ⟨false, true⟩)
    else
      (⟨500, Json.obj [("error", Json.str "Failed to submit response.")]⟩, st', ⟨false, false⟩)

/-- The metadata filter `where={"survey_id": survey_id}`. -/
def matchesSurvey (sid : String) (r : DbRecord) : Bool :=
  decide (jsonLookup r.meta "survey_id" = some (Json.str sid))

/-- One element of the `"responses"` list built by `get_survey_responses`. -/
def responseEntry (r : DbRecord) : Json :=
  Json.obj [("response_id", Json.str r.rid), ("answers", r.doc),
            ("timestamp", (jsonLookup r.meta "timestamp").getD Json.null)]

/-- Shallow embedding of the `get_survey_responses` route handler
(backend5.py lines 283-295). -/
def get_survey_responses (sid : String) (st : Store) : HttpResponse :=
  let results := st.responses.filter (matchesSurvey sid)
  if results.isEmpty then
    ⟨200, Json.obj [("survey_id", Json.str sid), ("responses", Json.arr [])]⟩
  else
    ⟨200, Json.obj [("survey_id", Json.str sid),
                    ("responses", Json.arr (results.map responseEntry))]⟩

/-- Stable insertion of `x` into a list already sorted descending by `key`:
`x` goes after every element whose key is at least `key x`. -/
def insertDesc {α : Type} (key : α → Int) (x : α) : List α → List α
  | [] => [x]
  | y :: ys => if key y < key x then x :: y :: ys else y :: insertDesc key x ys

/-- Python `sorted(l, key=key, reverse=True)`.  Python's sort is stable, and
the stable descending permutation of a list is unique, so stable insertion
sort models it exactly. -/
def pySortDesc {α : Type} (key : α → Int) (l : List α) : List α :=
  l.foldl (fun acc x => insertDesc key x acc) []

/-- The merged dictionary `{**meta, 'structure': json.loads(doc)}`. -/
def surveyEntry (r : DbRecord) : List (String × Json) := dictSet r.meta "structure" r.doc

/-- The sort key `x.get('created_at', 0)`.  The backend always stores an
integer `created_at`; a non-integer value would make Python's comparison
raise, which the model does not reproduce, so theorems about the sort take
the integer-or-absent hypothesis. -/
def createdAtKey (entry : List (String × Json)) : Int :=
  match jsonLookup entry "created_at" with
  | some (Json.num n) => n
  | _ => 0

/-- Shallow embedding of the `get_recent_surveys` route handler (backend5.py
lines 298-315). -/
def get_recent_surveys (st : Store) : HttpResponse :=
  if st.surveys.isEmpty then ⟨200, Json.arr []⟩
  else
    let allSurveys := st.surveys.map surveyEntry
    ⟨200, Json.arr ((pySortDesc createdAtKey allSurveys).map Json.obj)⟩

/-- Shallow embedding of the `analyze_survey_responses` route handler
(backend5.py lines 318-340).  `formId` is the request body's `"form_id"`
field; `llm` is the outcome of the analysis completion call (the prompt text
itself does not influence the modelled outcome). -/
def analyze_survey_responses (llm : Option String) (formId : Option String)
    (st : Store) : HttpResponse × Effects :=
  match formId with
  | none => (⟨400, Json.obj [("error", Json.str "No survey_id provided")]⟩, ⟨false, false⟩)
  | some sid =>
    if sid = "" then
      (⟨400, Json.obj [("error", Json.str "No survey_id provided")]⟩, ⟨false, false⟩)
    else
      let results := st.responses.filter (matchesSurvey sid)
      if results.isEmpty then
        (⟨404, Json.obj [("error", Json.str "No responses found for this survey")]⟩,
         ⟨false, false⟩)
      else
        match llm with
        | none =>
          (⟨500, Json.obj [("error", Json.str "Internal server error during analysis.")]⟩,
           ⟨true, false⟩)
        | some llmResp =>
          match extract_json_like llmResp with
          | none =>
            (⟨500, Json.obj [("error", Json.str "AI failed to produce a valid analysis."),
                             ("raw_response", Json.str llmResp)]⟩, ⟨true, false⟩)
          | some a =>
            if !(pyTruthy a) then
              (⟨500, Json.obj [("error", Json.str "AI failed to produce a valid analysis."),
                               ("raw_response", Json.str llmResp)]⟩, ⟨true, false⟩)
            else
              (⟨200, Json.obj [("form_id", Json.str sid), ("analysis", a),
                               ("raw_responses", Json.arr (results.map (fun r => r.doc)))]⟩,
               ⟨true, false⟩)

/-- Shallow embedding of the `submit_individual_analysis` route handler
(backend5.py lines 343-364).  The stored document is the raw stripped text;
the stored metadata is `{"user_input": ..., "timestamp": ..., **analysis}`.
The non-object branch after extraction is unreachable
(`extract_json_like` only returns objects); in Python the `**` unpacking
would raise and reach the blanket handler, which is how it is modelled. -/
def submit_individual_analysis (now : Int) (newId : String) (llm : Option String)
    (text : String) (st : Store) : HttpResponse × Store × Effects :=
  let responseText := pyStrip text
  if responseText = "" then
    (⟨400, Json.obj [("error", Json.str "No response text provided")]⟩, st, ⟨false, false⟩)
  else
    match llm with
    | none =>
      (⟨500, Json.obj [("error", Json.str "Internal server error during analysis.")]⟩,
       st, ⟨true, false⟩)
    | some llmResp =>
      match extract_json_like llmResp with
      | none =>
        (⟨500, Json.obj [("error", Json.str "AI failed to produce a valid analysis.")]⟩,
         st, ⟨true, false⟩)
      | some a =>
        if !(pyTruthy a) then
          (⟨500, Json.obj [("error", Json.str "AI failed to produce a valid analysis.")]⟩,
           st, ⟨true, false⟩)
        else
          match a with
          | Json.obj kvs =>
            let metadata :=
              dictMerge [("user_input", Json.str responseText), ("timestamp", Json.num now)] kvs
            (⟨200, Json.obj [("id", Json.str newId), ("analysis", Json.obj kvs)]⟩,
             { st with analyses := st.analyses ++ [⟨newId, Json.str responseText, metadata⟩] },
             ⟨true, false⟩)
          | _ =>
            (⟨500, Json.obj [("error", Json.str "Internal server error during analysis.")]⟩,
             st, ⟨true, false⟩)

/-! ### Dictionary lemmas -/

theorem find?_mapReplace (k : String) (v : Json) :
    ∀ kvs : List (String × Json), kvs.any (fun p => p.1 = k) = true →
      (kvs.map (fun p => if p.1 = k then (k, v) else p)).find? (fun p => p.1 = k) =
        some (k, v) := by
  intro kvs h
  induction kvs with
  | nil => simp at h
  | cons hd tl ih =>
    by_cases hk : hd.1 = k
    · simp [hk]
    · simp only [List.any_cons, Bool.or_eq_true, decide_eq_true_eq] at h
      rcases h with h | h
      · exact absurd h hk
      · simp only [List.map_cons, if_neg hk]
        rw [List.find?_cons_of_neg _ (by simpa using hk)]
        exact ih h

theorem jsonLookup_dictSet_self (kvs : List (String × Json)) (k : String) (v : Json) :
    jsonLookup (dictSet kvs k v) k = some v := by
  unfold dictSet
  by_cases h : kvs.any (fun p => p.1 = k) = true
  · rw [if_pos h]
    unfold jsonLookup
    rw [find?_mapReplace k v kvs h]
    rfl
  · rw [if_neg h]
    unfold jsonLookup
    rw [List.find?_append]
    have h1 : kvs.find? (fun p => p.1 = k) = none := by
      rw [List.find?_eq_none]
      intro x hx
      simp only [Bool.not_eq_true, decide_eq_false_iff_not]
      intro hxk
      exact h (List.any_eq_true.mpr ⟨x, hx, by simpa using hxk⟩)
    rw [h1]
    simp

theorem jsonLookup_dictSet_ne (kvs : List (String × Json)) (k k' : String) (v : Json)
    (h : k' ≠ k) : jsonLookup (dictSet kvs k v) k' = jsonLookup kvs k' := by
  unfold dictSet
  by_cases ha : kvs.any (fun p => p.1 = k) = true
  · rw [if_pos ha]
    unfold jsonLookup
    congr 1
    clear ha
    induction kvs with
    | nil => rfl
    | cons hd tl ih =>
      by_cases hk : hd.1 = k
      · simp only [List.map_cons, if_pos hk]
        rw [List.find?_cons_of_neg _ (by simpa using Ne.symm h),
            List.find?_cons_of_neg _ (by simp [hk, Ne.symm h])]
        exact ih
      · simp only [List.map_cons, if_neg hk]
        by_cases hk' : hd.1 = k'
        · rw [List.find?_cons_of_pos _ (by simpa using hk'),
              List.find?_cons_of_pos _ (by simpa using hk')]
        · rw [List.find?_cons_of_neg _ (by simpa using hk'),
              List.find?_cons_of_neg _ (by simpa using hk')]
          exact ih
  · rw [if_neg ha]
    unfold jsonLookup
    rw [List.find?_append]
    have h2 : [(k, v)].find? (fun p => p.1 = k') = none := by
      simp [Ne.symm h]
    rw [h2]
    cases kvs.find? (fun p => p.1 = k') <;> rfl

theorem dictMerge_nil (a : List (String × Json)) : dictMerge a [] = a := rfl

theorem dictMerge_cons (a : List (String × Json)) (k : String) (v : Json)
    (b : List (String × Json)) :
    dictMerge a ((k, v) :: b) = dictMerge (dictSet a k v) b := rfl

theorem jsonLookup_dictMerge_of_none (k : String) :
    ∀ b a : List (String × Json), jsonLookup b k = none →
      jsonLookup (dictMerge a b) k = jsonLookup a k := by
  intro b
  induction b with
  | nil => intro a _; rfl
  | cons hd tl ih =>
    intro a h
    obtain ⟨k₁, v₁⟩ := hd
    unfold jsonLookup at h
    by_cases hk : k₁ = k
    · rw [List.find?_cons_of_pos _ (by simpa using hk)] at h
      simp at h
    · rw [List.find?_cons_of_neg _ (by simpa using hk)] at h
      rw [dictMerge_cons, ih (dictSet a k₁ v₁) h,
          jsonLookup_dictSet_ne _ _ _ _ (fun he => hk he.symm)]

theorem jsonLookup_dictMerge_of_some (k : String) (v : Json) :
    ∀ b a : List (String × Json), (b.map Prod.fst).Nodup →
      jsonLookup b k = some v → jsonLookup (dictMerge a b) k = some v := by
  intro b
  induction b with
  | nil => intro a _ h; simp [jsonLookup] at h
  | cons hd tl ih =>
    intro a hnd h
    obtain ⟨k₁, v₁⟩ := hd
    simp only [List.map_cons, List.nodup_cons] at hnd
    by_cases hk : k₁ = k
    · unfold jsonLookup at h
      rw [List.find?_cons_of_pos _ (by simpa using hk)] at h
      simp only [Option.map_some'] at h
      have htl : jsonLookup tl k = none := by
        unfold jsonLookup
        rw [List.find?_eq_none.mpr]
        · rfl
        · intro x hx
          simp only [Bool.not_eq_true, decide_eq_false_iff_not]
          intro hxk
          exact hnd.1 (hk ▸ hxk ▸ List.mem_map_of_mem Prod.fst hx)
      rw [dictMerge_cons, jsonLookup_dictMerge_of_none k tl (dictSet a k₁ v₁) htl,
          hk, jsonLookup_dictSet_self]
      rw [← h]
    · unfold jsonLookup at h
      rw [List.find?_cons_of_neg _ (by simpa using hk)] at h
      rw [dictMerge_cons]
      exact ih (dictSet a k₁ v₁) hnd.2 h

/-! ### Stable descending sort lemmas -/

theorem insertDesc_perm {α : Type} (key : α → Int) (x : α) :
    ∀ l : List α, (insertDesc key x l).Perm (x :: l) := by
  intro l
  induction l with
  | nil => exact List.Perm.refl _
  | cons y ys ih =>
    unfold insertDesc
    by_cases h : key y < key x
    · rw [if_pos h]
    · rw [if_neg h]
      exact (ih.cons y).trans (List.Perm.swap x y ys)

theorem pySortDesc_perm_aux {α : Type} (key : α → Int) :
    ∀ (l acc : List α), (l.foldl (fun acc x => insertDesc key x acc) acc).Perm (acc ++ l) := by
  intro l
  induction l with
  | nil => intro acc; simp
  | cons x xs ih =>
    intro acc
    have h1 := ih (insertDesc key x acc)
    have h2 : (insertDesc key x acc ++ xs).Perm (acc ++ x :: xs) :=
      ((insertDesc_perm key x acc).append_right xs).trans
        (List.perm_middle.symm)
    exact h1.trans h2

theorem pySortDesc_perm {α : Type} (key : α → Int) (l : List α) :
    (pySortDesc key l).Perm l := by
  have := pySortDesc_perm_aux key l []
  simpa [pySortDesc] using this

theorem insertDesc_sorted {α : Type} (key : α → Int) (x : α) :
    ∀ l : List α, l.Pairwise (fun a b => key b ≤ key a) →
      (insertDesc key x l).Pairwise (fun a b => key b ≤ key a) := by
  intro l
  induction l with
  | nil => intro _; simp [insertDesc]
  | cons y ys ih =>
    intro hl
    rw [List.pairwise_cons] at hl
    unfold insertDesc
    by_cases h : key y < key x
    · rw [if_pos h]
      refine List.Pairwise.cons ?_ (List.Pairwise.cons hl.1 hl.2)
      intro z hz
      rcases List.mem_cons.mp hz with rfl | hz'
      · exact le_of_lt h
      · exact le_trans (hl.1 z hz') (le_of_lt h)
    · rw [if_neg h]
      refine List.Pairwise.cons ?_ (ih hl.2)
      intro z hz
      have hz' := (insertDesc_perm key x ys).mem_iff.mp hz
      rcases List.mem_cons.mp hz' with rfl | hz''
      · exact le_of_not_gt h
      · exact hl.1 z hz''

theorem pySortDesc_sorted_aux {α : Type} (key : α → Int) :
    ∀ (l acc : List α), acc.Pairwise (fun a b => key b ≤ key a) →
      (l.foldl (fun acc x => insertDesc key x acc) acc).Pairwise (fun a b => key b ≤ key a) := by
  intro l
  induction l with
  | nil => intro acc h; simpa using h
  | cons x xs ih =>
    intro acc h
    exact ih (insertDesc key x acc) (insertDesc_sorted key x acc h)

theorem pySortDesc_sorted {α : Type} (key : α → Int) (l : List α) :
    (pySortDesc key l).Pairwise (fun a b => key b ≤ key a) :=
  pySortDesc_sorted_aux key l [] (by simp)

/-! ### The claims -/

/-- Both branches of `get_survey_responses` produce the same shape: the
filtered records mapped to entries (the empty branch is the `[]` case). -/
theorem get_survey_responses_eq (sid : String) (st : Store) :
    get_survey_responses sid st =
      ⟨200, Json.obj [("survey_id", Json.str sid),
        ("responses",
         Json.arr ((st.responses.filter (matchesSurvey sid)).map responseEntry))]⟩ := by
  simp only [get_survey_responses]
  split
  · rename_i h
    rw [List.isEmpty_iff] at h
    rw [h]
    rfl
  · rfl

/-- C7: for every survey identity, `listResponses(surveyId)`
(`get_survey_responses`) returns, with a 200 status and never an error,
exactly the stored responses whose foreign key equals that identity — an
empty sequence when there are none — and a record stored under any other
identity is never among the matches. -/
theorem sage_C7_isolation (sid : String) (st : Store) :
    (get_survey_responses sid st).status = 200 ∧
    (get_survey_responses sid st).body =
      Json.obj [("survey_id", Json.str sid),
                ("responses",
                 Json.arr ((st.responses.filter (matchesSurvey sid)).map responseEntry))] ∧
    (∀ r ∈ st.responses, jsonLookup r.meta "survey_id" = some (Json.str sid) →
       r ∈ st.responses.filter (matchesSurvey sid)) ∧
    (∀ r ∈ st.responses, ∀ other : String, other ≠ sid →
       jsonLookup r.meta "survey_id" = some (Json.str other) →
       r ∉ st.responses.filter (matchesSurvey sid)) := by
  refine ⟨?_, ?_, ?_, ?_⟩
  · simp only [get_survey_responses]
    split <;> rfl
  · simp only [get_survey_responses]
    split
    · rename_i h
      rw [List.isEmpty_iff] at h
      rw [h]
      rfl
    · rfl
  · intro r hr hm
    exact List.mem_filter.mpr ⟨hr, by simp [matchesSurvey, hm]⟩
  · intro r _ other hne hother hmem
    have hm := (List.mem_filter.mp hmem).2
    simp only [matchesSurvey, decide_eq_true_eq] at hm
    rw [hother] at hm
    exact hne (by simpa using hm)

/-- Witness for C7 at a concrete store: one response stored under `"s1"`,
one under `"s2"`; the `"s1"` filter contains the first and not the second. -/
theorem sage_C7_witness :
    (get_survey_responses "s1"
      ⟨[], [⟨"r1", Json.obj [("q", Json.str "a")], [("survey_id", Json.str "s1")]⟩,
            ⟨"r2", Json.obj [("q", Json.str "b")], [("survey_id", Json.str "s2")]⟩], []⟩).status
        = 200 ∧
    (⟨"r1", Json.obj [("q", Json.str "a")], [("survey_id", Json.str "s1")]⟩ : DbRecord) ∈
      ([⟨"r1", Json.obj [("q", Json.str "a")], [("survey_id", Json.str "s1")]⟩,
        ⟨"r2", Json.obj [("q", Json.str "b")], [("survey_id", Json.str "s2")]⟩] :
        List DbRecord).filter (matchesSurvey "s1") ∧
    (⟨"r2", Json.obj [("q", Json.str "b")], [("survey_id", Json.str "s2")]⟩ : DbRecord) ∉
      ([⟨"r1", Json.obj [("q", Json.str "a")], [("survey_id", Json.str "s1")]⟩,
        ⟨"r2", Json.obj [("q", Json.str "b")], [("survey_id", Json.str "s2")]⟩] :
        List DbRecord).filter (matchesSurvey "s1") := by
  refine ⟨(sage_C7_isolation "s1" _).1, ?_, ?_⟩
  · exact (sage_C7_isolation "s1"
      ⟨[], [⟨"r1", Json.obj [("q", Json.str "a")], [("survey_id", Json.str "s1")]⟩,
            ⟨"r2", Json.obj [("q", Json.str "b")], [("survey_id", Json.str "s2")]⟩], []⟩).2.2.1
      _ (by decide) (by decide)
  · exact (sage_C7_isolation "s1"
      ⟨[], [⟨"r1", Json.obj [("q", Json.str "a")], [("survey_id", Json.str "s1")]⟩,
            ⟨"r2", Json.obj [("q", Json.str "b")], [("survey_id", Json.str "s2")]⟩], []⟩).2.2.2
      _ (by decide) "s2" (by decide) (by decide)

/-- C8: an empty (or whitespace-only) prompt to `create_survey`, an empty
answers mapping to `submit_survey_response`, and empty stripped text to
`submit_individual_analysis` each fail synchronously with a 400 response,
leave the store unchanged, and reach neither the LLM nor the publish. -/
theorem sage_C8_empty_input (hostUrl : String) (now : Int) (newId : String)
    (llm : Option String) (emitOk : Bool) (prompt sid text : String) (answers : Json)
    (st : Store) (hp : pyStrip prompt = "") (ha : pyTruthy answers = false)
    (ht : pyStrip text = "") :
    create_survey hostUrl now newId llm emitOk prompt st =
      (⟨400, Json.obj [("error", Json.str "Prompt cannot be empty")]⟩, st, ⟨false, false⟩) ∧
    submit_survey_response now newId emitOk sid answers st =
      (⟨400, Json.obj [("error", Json.str "No responses provided")]⟩, st, ⟨false, false⟩) ∧
    submit_individual_analysis now newId llm text st =
      (⟨400, Json.obj [("error", Json.str "No response text provided")]⟩, st, ⟨false, false⟩) := by
  refine ⟨?_, ?_, ?_⟩
  · simp [create_survey, hp]
  · simp [submit_survey_response, ha]
  · simp [submit_individual_analysis, ht]

/-- Witness for C8: a whitespace-only prompt, an empty answers object, and
an empty text, against the empty store. -/
theorem sage_C8_witness :
    create_survey "http://h/" 0 "id-1" none true "   " ⟨[], [], []⟩ =
      (⟨400, Json.obj [("error", Json.str "Prompt cannot be empty")]⟩,
       (⟨[], [], []⟩ : Store), ⟨false, false⟩) ∧
    submit_survey_response 0 "id-1" true "s1" (Json.obj []) ⟨[], [], []⟩ =
      (⟨400, Json.obj [("error", Json.str "No responses provided")]⟩,
       (⟨[], [], []⟩ : Store), ⟨false, false⟩) ∧
    submit_individual_analysis 0 "id-1" none "\t" ⟨[], [], []⟩ =
      (⟨400, Json.obj [("error", Json.str "No response text provided")]⟩,
       (⟨[], [], []⟩ : Store), ⟨false, false⟩) :=
  sage_C8_empty_input "http://h/" 0 "id-1" none true "   " "s1" "\t" (Json.obj [])
    ⟨[], [], []⟩ rfl rfl rfl

/-- C6: for every non-empty answers mapping and every survey identity —
including one no survey was ever created under, since `st.surveys` is left
fully unconstrained — `submit_survey_response` succeeds with the new
response identity, appends the response record, and the response appears in
the `get_survey_responses` listing for that identity. -/
theorem sage_C6_permissive (now : Int) (newId sid : String) (answers : Json)
    (st : Store) (ha : pyTruthy answers = true) :
    (submit_survey_response now newId true sid answers st).1 =
      ⟨200, Json.obj [("success", Json.bool true), ("response_id", Json.str newId)]⟩ ∧
    (submit_survey_response now newId true sid answers st).2.1.responses =
      st.responses ++ [(⟨newId, answers,
        [("survey_id", Json.str sid), ("timestamp", Json.num now)]⟩ : DbRecord)] ∧
    (get_survey_responses sid (submit_survey_response now newId true sid answers st).2.1).body =
      Json.obj [("survey_id", Json.str sid),
        ("responses", Json.arr
          (((st.responses ++ [(⟨newId, answers,
              [("survey_id", Json.str sid), ("timestamp", Json.num now)]⟩ : DbRecord)]).filter
            (matchesSurvey sid)).map responseEntry))] ∧
    Json.obj [("response_id", Json.str newId), ("answers", answers),
              ("timestamp", Json.num now)] ∈
      ((st.responses ++ [(⟨newId, answers,
          [("survey_id", Json.str sid), ("timestamp", Json.num now)]⟩ : DbRecord)]).filter
        (matchesSurvey sid)).map responseEntry := by
  have hrec : matchesSurvey sid
      ⟨newId, answers, [("survey_id", Json.str sid), ("timestamp", Json.num now)]⟩ = true := by
    simp [matchesSurvey, jsonLookup]
  have hst : (submit_survey_response now newId true sid answers st).2.1 =
      { st with responses := st.responses ++ [⟨newId, answers,
        [("survey_id", Json.str sid), ("timestamp", Json.num now)]⟩] } := by
    simp [submit_survey_response, ha]
  refine ⟨?_, ?_, ?_, ?_⟩
  · simp [submit_survey_response, ha]
  · rw [hst]
  · rw [hst, get_survey_responses_eq]
  · have hent : responseEntry
        ⟨newId, answers, [("survey_id", Json.str sid), ("timestamp", Json.num now)]⟩ =
        Json.obj [("response_id", Json.str newId), ("answers", answers),
                  ("timestamp", Json.num now)] := by
      simp [responseEntry, jsonLookup]
    rw [← hent]
    exact List.mem_map_of_mem responseEntry
      (List.mem_filter.mpr ⟨List.mem_append_right _ (List.mem_singleton.mpr rfl), hrec⟩)

/-- Witness for C6 at the spec's concrete scenario:
`addResponse("nonexistent-id", \x7b"q": "a"\x7d)` against the empty store. -/
theorem sage_C6_witness :
    (submit_survey_response 3 "rid-9" true "nonexistent-id"
       (Json.obj [("q", Json.str "a")]) ⟨[], [], []⟩).1 =
      ⟨200, Json.obj [("success", Json.bool true), ("response_id", Json.str "rid-9")]⟩ ∧
    Json.obj [("response_id", Json.str "rid-9"),
              ("answers", Json.obj [("q", Json.str "a")]),
              ("timestamp", Json.num 3)] ∈
      ((([] : List DbRecord) ++ [(⟨"rid-9", Json.obj [("q", Json.str "a")],
          [("survey_id", Json.str "nonexistent-id"), ("timestamp", Json.num 3)]⟩ : DbRecord)]).filter
        (matchesSurvey "nonexistent-id")).map responseEntry :=
  ⟨(sage_C6_permissive 3 "rid-9" "nonexistent-id" (Json.obj [("q", Json.str "a")])
      ⟨[], [], []⟩ rfl).1,
   (sage_C6_permissive 3 "rid-9" "nonexistent-id" (Json.obj [("q", Json.str "a")])
      ⟨[], [], []⟩ rfl).2.2.2⟩

/-- C10: in `submit_individual_analysis` the analysis payload is merged into
the metadata after the `user_input` and `timestamp` fields, so a payload key
named `user_input` makes the payload's value the one stored in the persisted
record, overwriting the original text (and likewise for `timestamp`). -/
theorem sage_C10_overwrite (now : Int) (newId text resp : String) (st : Store)
    (kvs : List (String × Json)) (v : Json) (ht : ¬ pyStrip text = "")
    (hex : extract_json_like resp = some (Json.obj kvs)) (hne : kvs ≠ [])
    (hnd : (kvs.map Prod.fst).Nodup)
    (hv : jsonLookup kvs "user_input" = some v) :
    (submit_individual_analysis now newId (some resp) text st).2.1.analyses =
      st.analyses ++ [(⟨newId, Json.str (pyStrip text),
        dictMerge [("user_input", Json.str (pyStrip text)), ("timestamp", Json.num now)]
          kvs⟩ : DbRecord)] ∧
    jsonLookup
      (dictMerge [("user_input", Json.str (pyStrip text)), ("timestamp", Json.num now)] kvs)
      "user_input" = some v := by
  constructor
  · simp [submit_individual_analysis, ht, hex, pyTruthy, hne]
  · exact jsonLookup_dictMerge_of_some "user_input" v kvs _ hnd hv

/-- Witness for C10: a payload carrying `user_input: "HIJACKED"` ends up as
the persisted `user_input`, displacing the original text `"hello"`. -/
theorem sage_C10_witness :
    (submit_individual_analysis 7 "aid-1"
       (some "\x7b\"user_input\": \"HIJACKED\", \"sentiment\": \"neg\"\x7d")
       "hello" ⟨[], [], []⟩).2.1.analyses =
      ([] : List DbRecord) ++ [(⟨"aid-1", Json.str (pyStrip "hello"),
        dictMerge [("user_input", Json.str (pyStrip "hello")), ("timestamp", Json.num 7)]
          [("user_input", Json.str "HIJACKED"), ("sentiment", Json.str "neg")]⟩ : DbRecord)] ∧
    jsonLookup
      (dictMerge [("user_input", Json.str (pyStrip "hello")), ("timestamp", Json.num 7)]
        [("user_input", Json.str "HIJACKED"), ("sentiment", Json.str "neg")])
      "user_input" = some (Json.str "HIJACKED") :=
  sage_C10_overwrite 7 "aid-1" "hello"
    "\x7b\"user_input\": \"HIJACKED\", \"sentiment\": \"neg\"\x7d" ⟨[], [], []⟩
    [("user_input", Json.str "HIJACKED"), ("sentiment", Json.str "neg")]
    (Json.str "HIJACKED") (by decide) (by decide) (by decide) (by decide) (by decide)

/-- Evaluation of `create_survey` on the path where extraction produced a
non-empty object with a `"questions"` key: the record is appended whatever
`emitOk` is, and the response depends on the emit outcome alone. -/
theorem create_survey_eq_success (hostUrl : String) (now : Int)
    (newId resp prompt : String) (st : Store) (kvs : List (String × Json)) (q : Json)
    (emitOk : Bool) (hp : ¬ pyStrip prompt = "")
    (hex : extract_json_like resp = some (Json.obj kvs)) (hne : kvs ≠ [])
    (hq : jsonLookup kvs "questions" = some q) :
    create_survey hostUrl now newId (some resp) emitOk prompt st =
      ((if emitOk then
          ⟨200, Json.obj [("survey_id", Json.str newId),
                          ("public_url", Json.str (hostUrl ++ "survey/" ++ newId)),
                          ("structure", Json.obj kvs)]⟩
        else internalErrSurvey),
       { st with surveys := st.surveys ++
          [⟨newId, Json.obj kvs, createMeta hostUrl now newId (pyStrip prompt) kvs⟩] },
       ⟨true, emitOk⟩) := by
  have hkv : kvs.isEmpty = false := by simpa [List.isEmpty_iff] using hne
  cases emitOk <;> simp [create_survey, hp, hex, hq, pyTruthy, hkv]

/-- A fresh record appended to the survey collection is the one
`display_survey` finds. -/
theorem display_survey_append_fresh (newId : String) (st : Store) (doc : Json)
    (meta : List (String × Json)) (hfresh : ∀ r ∈ st.surveys, r.rid ≠ newId) :
    display_survey newId
      { st with surveys := st.surveys ++ [(⟨newId, doc, meta⟩ : DbRecord)] } =
      ⟨200, doc⟩ := by
  unfold display_survey
  have h1 : st.surveys.find? (fun r => r.rid == newId) = none :=
    List.find?_eq_none.mpr (fun r hr => by simp [hfresh r hr])
  simp [h1]

/-- C1 counterexample: a survey whose question sequence is empty, and one
whose single question has a single option, are both accepted by
`create_survey` — status 200, record persisted — where the claim requires a
400-class `ValidationError` with nothing persisted. -/
theorem sage_C1_counterexample :
    (create_survey "http://h/" 0 "sid-1" (some "\x7b\"questions\": []\x7d") true "make"
       ⟨[], [], []⟩).1.status = 200 ∧
    (create_survey "http://h/" 0 "sid-1" (some "\x7b\"questions\": []\x7d") true "make"
       ⟨[], [], []⟩).2.1.surveys.length = 1 ∧
    (create_survey "http://h/" 0 "sid-2"
       (some "\x7b\"questions\": [\x7b\"question\": \"q\", \"options\": [\"only\"]\x7d]\x7d")
       true "make" ⟨[], [], []⟩).1.status = 200 ∧
    (create_survey "http://h/" 0 "sid-2"
       (some "\x7b\"questions\": [\x7b\"question\": \"q\", \"options\": [\"only\"]\x7d]\x7d")
       true "make" ⟨[], [], []⟩).2.1.surveys.length = 1 := by
  refine ⟨?_, ?_, ?_, ?_⟩ <;> decide

/-- C1 (amended): `create_survey` performs no structural validation of the
question sequence.  Whenever extraction yields a non-empty object containing
a `"questions"` key the survey is persisted and the operation returns 200,
regardless of that key's value — in particular for an empty sequence or
questions with fewer than two options; and when extraction fails the
handler returns the 500 `aiFailSurvey` response (not a 400-class one),
persisting nothing. -/
theorem sage_C1_amended (hostUrl : String) (now : Int) (newId resp prompt : String)
    (st : Store) (kvs : List (String × Json)) (q : Json) (hp : ¬ pyStrip prompt = "")
    (hex : extract_json_like resp = some (Json.obj kvs)) (hne : kvs ≠ [])
    (hq : jsonLookup kvs "questions" = some q) :
    (create_survey hostUrl now newId (some resp) true prompt st).1.status = 200 ∧
    (create_survey hostUrl now newId (some resp) true prompt st).2.1.surveys =
      st.surveys ++
        [⟨newId, Json.obj kvs, createMeta hostUrl now newId (pyStrip prompt) kvs⟩] ∧
    (∀ resp₂ : String, extract_json_like resp₂ = none →
       create_survey hostUrl now newId (some resp₂) true prompt st =
         (aiFailSurvey resp₂, st, ⟨true, false⟩)) := by
  have h := create_survey_eq_success hostUrl now newId resp prompt st kvs q true
    hp hex hne hq
  refine ⟨?_, ?_, ?_⟩
  · simp [h]
  · simp [h]
  · intro resp₂ hex₂
    simp [create_survey, hp, hex₂]

/-- Witness for C1 (amended): the empty-questions structure is accepted and
persisted, and an unparseable LLM reply yields the 500 `aiFailSurvey`
response with the store unchanged. -/
theorem sage_C1_witness :
    (create_survey "http://h/" 9 "sid-3" (some "\x7b\"questions\": []\x7d") true "p"
       ⟨[], [], []⟩).1.status = 200 ∧
    (create_survey "http://h/" 9 "sid-3" (some "\x7b\"questions\": []\x7d") true "p"
       ⟨[], [], []⟩).2.1.surveys =
      ([] : List DbRecord) ++
        [⟨"sid-3", Json.obj [("questions", Json.arr [])],
          createMeta "http://h/" 9 "sid-3" (pyStrip "p") [("questions", Json.arr [])]⟩] ∧
    (∀ resp₂ : String, extract_json_like resp₂ = none →
       create_survey "http://h/" 9 "sid-3" (some resp₂) true "p" ⟨[], [], []⟩ =
         (aiFailSurvey resp₂, ⟨[], [], []⟩, ⟨true, false⟩)) :=
  sage_C1_amended "http://h/" 9 "sid-3" "\x7b\"questions\": []\x7d" "p" ⟨[], [], []⟩
    [("questions", Json.arr [])] (Json.arr []) (by decide) (by decide) (by decide)
    (by decide)

/-- C2: for all survey attributes `create_survey` accepts — in particular
all valid ones (non-empty title, at least one question, two or more options
each) — a successful creation returns the fresh identity, and an immediately
following `display_survey` with that identity loads exactly the created
structure, so title, description and question sequence round-trip. -/
theorem sage_C2_roundtrip (hostUrl : String) (now : Int) (newId resp prompt : String)
    (st : Store) (kvs : List (String × Json)) (q : Json) (hp : ¬ pyStrip prompt = "")
    (hex : extract_json_like resp = some (Json.obj kvs)) (hne : kvs ≠ [])
    (hq : jsonLookup kvs "questions" = some q)
    (hfresh : ∀ r ∈ st.surveys, r.rid ≠ newId) :
    (create_survey hostUrl now newId (some resp) true prompt st).1 =
      ⟨200, Json.obj [("survey_id", Json.str newId),
                      ("public_url", Json.str (hostUrl ++ "survey/" ++ newId)),
                      ("structure", Json.obj kvs)]⟩ ∧
    display_survey newId (create_survey hostUrl now newId (some resp) true prompt st).2.1 =
      ⟨200, Json.obj kvs⟩ := by
  have h := create_survey_eq_success hostUrl now newId resp prompt st kvs q true
    hp hex hne hq
  constructor
  · simp [h]
  · rw [h]
    exact display_survey_append_fresh newId st (Json.obj kvs) _ hfresh

/-- Witness for C2 at the spec section 8 scenario: the "Pulse Check" survey
with one three-option question round-trips through the store. -/
theorem sage_C2_witness :
    (create_survey "http://h/" 1 "pc-1"
       (some "\x7b\"title\": \"Pulse Check\", \"questions\": [\x7b\"question\": \"How satisfied are you?\", \"options\": [\"Low\", \"Medium\", \"High\"]\x7d]\x7d")
       true "pulse" ⟨[], [], []⟩).1 =
      ⟨200, Json.obj [("survey_id", Json.str "pc-1"),
                      ("public_url", Json.str ("http://h/" ++ "survey/" ++ "pc-1")),
                      ("structure", Json.obj
                        [("title", Json.str "Pulse Check"),
                         ("questions", Json.arr [Json.obj
                           [("question", Json.str "How satisfied are you?"),
                            ("options", Json.arr [Json.str "Low", Json.str "Medium",
                                                  Json.str "High"])]])])]⟩ ∧
    display_survey "pc-1"
      (create_survey "http://h/" 1 "pc-1"
        (some "\x7b\"title\": \"Pulse Check\", \"questions\": [\x7b\"question\": \"How satisfied are you?\", \"options\": [\"Low\", \"Medium\", \"High\"]\x7d]\x7d")
        true "pulse" ⟨[], [], []⟩).2.1 =
      ⟨200, Json.obj
        [("title", Json.str "Pulse Check"),
         ("questions", Json.arr [Json.obj
           [("question", Json.str "How satisfied are you?"),
            ("options", Json.arr [Json.str "Low", Json.str "Medium",
                                  Json.str "High"])]])]⟩ :=
  sage_C2_roundtrip "http://h/" 1 "pc-1"
    "\x7b\"title\": \"Pulse Check\", \"questions\": [\x7b\"question\": \"How satisfied are you?\", \"options\": [\"Low\", \"Medium\", \"High\"]\x7d]\x7d"
    "pulse" ⟨[], [], []⟩
    [("title", Json.str "Pulse Check"),
     ("questions", Json.arr [Json.obj
       [("question", Json.str "How satisfied are you?"),
        ("options", Json.arr [Json.str "Low", Json.str "Medium", Json.str "High"])]])]
    (Json.arr [Json.obj
       [("question", Json.str "How satisfied are you?"),
        ("options", Json.arr [Json.str "Low", Json.str "Medium", Json.str "High"])]])
    (by decide) (by decide) (by decide) (by decide) (by simp)


/-- C3 counterexample: two stores holding the same two surveys (equal
`created_at`, identities `"a"` and `"b"`) in opposite storage orders get
different listings from `get_recent_surveys`, so the ordering is not the
claimed deterministic total order keyed on timestamp with identity
tie-break — ties follow the store's enumeration order instead. -/
theorem sage_C3_counterexample :
    (([⟨"b", Json.null, [("survey_id", Json.str "b"), ("created_at", Json.num 5)]⟩,
       ⟨"a", Json.null, [("survey_id", Json.str "a"), ("created_at", Json.num 5)]⟩] :
        List DbRecord).Perm
     ([⟨"a", Json.null, [("survey_id", Json.str "a"), ("created_at", Json.num 5)]⟩,
       ⟨"b", Json.null, [("survey_id", Json.str "b"), ("created_at", Json.num 5)]⟩] :
        List DbRecord)) ∧
    get_recent_surveys
        ⟨[⟨"b", Json.null, [("survey_id", Json.str "b"), ("created_at", Json.num 5)]⟩,
          ⟨"a", Json.null, [("survey_id", Json.str "a"), ("created_at", Json.num 5)]⟩],
         [], []⟩ ≠
      get_recent_surveys
        ⟨[⟨"a", Json.null, [("survey_id", Json.str "a"), ("created_at", Json.num 5)]⟩,
          ⟨"b", Json.null, [("survey_id", Json.str "b"), ("created_at", Json.num 5)]⟩],
         [], []⟩ := by
  refine ⟨?_, ?_⟩ <;> decide

/-- C3 (amended): `get_recent_surveys` returns, with status 200, all stored
surveys sorted by `created_at` descending with a stable sort: surveys with
equal timestamps keep the store's enumeration order, and identity plays no
part.  The hypothesis scopes the statement to stores whose `created_at`
values are integers or absent, the only ones the backend writes (elsewhere
Python's comparison would raise, which the model does not reproduce). -/
theorem sage_C3_amended (st : Store)
    (_intKeys : ∀ r ∈ st.surveys, jsonLookup r.meta "created_at" = none ∨
         ∃ n : Int, jsonLookup r.meta "created_at" = some (Json.num n)) :
    (get_recent_surveys st).status = 200 ∧
    (get_recent_surveys st).body =
      Json.arr ((pySortDesc createdAtKey (st.surveys.map surveyEntry)).map Json.obj) ∧
    (pySortDesc createdAtKey (st.surveys.map surveyEntry)).Perm
      (st.surveys.map surveyEntry) ∧
    (pySortDesc createdAtKey (st.surveys.map surveyEntry)).Pairwise
      (fun a b => createdAtKey b ≤ createdAtKey a) := by
  refine ⟨?_, ?_, pySortDesc_perm _ _, pySortDesc_sorted _ _⟩
  · simp only [get_recent_surveys]
    split <;> rfl
  · simp only [get_recent_surveys]
    split
    · rename_i he
      rw [List.isEmpty_iff] at he
      simp [he, pySortDesc]
    · rfl

/-- Witness for C3 (amended) at a two-survey store with distinct
timestamps. -/
theorem sage_C3_witness :
    (get_recent_surveys
       ⟨[⟨"x", Json.null, [("created_at", Json.num 3)]⟩,
         ⟨"y", Json.null, [("created_at", Json.num 7)]⟩], [], []⟩).status = 200 ∧
    (get_recent_surveys
       ⟨[⟨"x", Json.null, [("created_at", Json.num 3)]⟩,
         ⟨"y", Json.null, [("created_at", Json.num 7)]⟩], [], []⟩).body =
      Json.arr ((pySortDesc createdAtKey
        (([⟨"x", Json.null, [("created_at", Json.num 3)]⟩,
           ⟨"y", Json.null, [("created_at", Json.num 7)]⟩] : List DbRecord).map
          surveyEntry)).map Json.obj) ∧
    (pySortDesc createdAtKey
      (([⟨"x", Json.null, [("created_at", Json.num 3)]⟩,
         ⟨"y", Json.null, [("created_at", Json.num 7)]⟩] : List DbRecord).map
        surveyEntry)).Perm
      (([⟨"x", Json.null, [("created_at", Json.num 3)]⟩,
         ⟨"y", Json.null, [("created_at", Json.num 7)]⟩] : List DbRecord).map
        surveyEntry) ∧
    (pySortDesc createdAtKey
      (([⟨"x", Json.null, [("created_at", Json.num 3)]⟩,
         ⟨"y", Json.null, [("created_at", Json.num 7)]⟩] : List DbRecord).map
        surveyEntry)).Pairwise (fun a b => createdAtKey b ≤ createdAtKey a) :=
  sage_C3_amended
    ⟨[⟨"x", Json.null, [("created_at", Json.num 3)]⟩,
      ⟨"y", Json.null, [("created_at", Json.num 7)]⟩], [], []⟩
    (by
      intro r hr
      simp only [List.mem_cons, List.not_mem_nil, or_false] at hr
      rcases hr with rfl | rfl
      · exact Or.inr ⟨3, rfl⟩
      · exact Or.inr ⟨7, rfl⟩)

/-- C4 counterexample: with a non-empty answers mapping and a failing
publish, `submit_survey_response` reports a 500 failure — not its success
result with the new identity — although the response record was persisted. -/
theorem sage_C4_counterexample :
    (submit_survey_response 5 "rid-1" false "s1" (Json.obj [("q", Json.str "a")])
       ⟨[], [], []⟩).1 =
      ⟨500, Json.obj [("error", Json.str "Failed to submit response.")]⟩ ∧
    (submit_survey_response 5 "rid-1" false "s1" (Json.obj [("q", Json.str "a")])
       ⟨[], [], []⟩).2.1.responses.length = 1 := by
  refine ⟨?_, ?_⟩ <;> decide

/-- C4 (amended): a publish failure after a successful persist makes the
triggering operation report a 500 error — the emit exception is caught by
the handler's blanket `except`, not discarded — although the newly persisted
record remains in the store; this holds for both `create_survey` and
`submit_survey_response`. -/
theorem sage_C4_amended (hostUrl : String) (now : Int) (newId resp prompt sid : String)
    (answers : Json) (st : Store) (kvs : List (String × Json)) (q : Json)
    (hp : ¬ pyStrip prompt = "") (hex : extract_json_like resp = some (Json.obj kvs))
    (hne : kvs ≠ []) (hq : jsonLookup kvs "questions" = some q)
    (ha : pyTruthy answers = true) :
    create_survey hostUrl now newId (some resp) false prompt st =
      (internalErrSurvey,
       { st with surveys := st.surveys ++
          [⟨newId, Json.obj kvs, createMeta hostUrl now newId (pyStrip prompt) kvs⟩] },
       ⟨true, false⟩) ∧
    submit_survey_response now newId false sid answers st =
      (⟨500, Json.obj [("error", Json.str "Failed to submit response.")]⟩,
       { st with responses := st.responses ++
          [⟨newId, answers, [("survey_id", Json.str sid), ("timestamp", Json.num now)]⟩] },
       ⟨false, false⟩) := by
  constructor
  · have h := create_survey_eq_success hostUrl now newId resp prompt st kvs q false
      hp hex hne hq
    simpa using h
  · simp [submit_survey_response, ha]

/-- Witness for C4 (amended) at concrete inputs with the publish failing. -/
theorem sage_C4_witness :
    create_survey "http://h/" 2 "sv-1" (some "\x7b\"questions\": []\x7d") false "p"
        ⟨[], [], []⟩ =
      (internalErrSurvey,
       (⟨([] : List DbRecord) ++
          [⟨"sv-1", Json.obj [("questions", Json.arr [])],
            createMeta "http://h/" 2 "sv-1" (pyStrip "p") [("questions", Json.arr [])]⟩],
         [], []⟩ : Store),
       ⟨true, false⟩) ∧
    submit_survey_response 2 "sv-1" false "s1" (Json.obj [("q", Json.str "a")])
        ⟨[], [], []⟩ =
      (⟨500, Json.obj [("error", Json.str "Failed to submit response.")]⟩,
       (⟨[], ([] : List DbRecord) ++
          [⟨"sv-1", Json.obj [("q", Json.str "a")],
            [("survey_id", Json.str "s1"), ("timestamp", Json.num 2)]⟩], []⟩ : Store),
       ⟨false, false⟩) :=
  sage_C4_amended "http://h/" 2 "sv-1" "\x7b\"questions\": []\x7d" "p" "s1"
    (Json.obj [("q", Json.str "a")]) ⟨[], [], []⟩ [("questions", Json.arr [])]
    (Json.arr []) (by decide) (by decide) (by decide) (by decide) (by decide)

/-- C5 counterexample: on JSON-extraction failure,
`submit_individual_analysis` returns a 500 error body that carries no
`raw_response` field — the raw upstream text `"totally not json"` is not
included, where the claim requires it for every LLM-calling operation. -/
theorem sage_C5_counterexample :
    (submit_individual_analysis 0 "id-1" (some "totally not json") "hello"
       ⟨[], [], []⟩).1 =
      ⟨500, Json.obj [("error", Json.str "AI failed to produce a valid analysis.")]⟩ ∧
    jsonLookup [("error", Json.str "AI failed to produce a valid analysis.")]
      "raw_response" = none := by
  refine ⟨?_, ?_⟩ <;> decide

/-- C5 (amended): when JSON extraction from the collaborator's reply fails,
`create_survey` and `analyze_survey_responses` return the raw upstream text
in the `raw_response` field of their 500 error bodies, but
`submit_individual_analysis` omits it. -/
theorem sage_C5_amended (hostUrl : String) (now : Int) (newId resp prompt text sid : String)
    (st : Store) (hex : extract_json_like resp = none) (hp : ¬ pyStrip prompt = "")
    (ht : ¬ pyStrip text = "") (hs : ¬ sid = "")
    (hr : st.responses.filter (matchesSurvey sid) ≠ []) :
    create_survey hostUrl now newId (some resp) true prompt st =
      (aiFailSurvey resp, st, ⟨true, false⟩) ∧
    analyze_survey_responses (some resp) (some sid) st =
      (⟨500, Json.obj [("error", Json.str "AI failed to produce a valid analysis."),
                       ("raw_response", Json.str resp)]⟩, ⟨true, false⟩) ∧
    submit_individual_analysis now newId (some resp) text st =
      (⟨500, Json.obj [("error", Json.str "AI failed to produce a valid analysis.")]⟩,
       st, ⟨true, false⟩) := by
  have hre : (st.responses.filter (matchesSurvey sid)).isEmpty = false := by
    simpa [List.isEmpty_iff] using hr
  refine ⟨?_, ?_, ?_⟩
  · simp [create_survey, hp, hex]
  · simp [analyze_survey_responses, hs, hre, hex]
  · simp [submit_individual_analysis, ht, hex]

/-- Witness for C5 (amended) at concrete inputs: one stored response under
`"s1"`, and a reply without any JSON object. -/
theorem sage_C5_witness :
    create_survey "http://h/" 0 "id-9" (some "nope") true "p"
        ⟨[], [⟨"r1", Json.obj [("q", Json.str "a")],
               [("survey_id", Json.str "s1"), ("timestamp", Json.num 0)]⟩], []⟩ =
      (aiFailSurvey "nope",
       (⟨[], [⟨"r1", Json.obj [("q", Json.str "a")],
               [("survey_id", Json.str "s1"), ("timestamp", Json.num 0)]⟩], []⟩ : Store),
       ⟨true, false⟩) ∧
    analyze_survey_responses (some "nope") (some "s1")
        ⟨[], [⟨"r1", Json.obj [("q", Json.str "a")],
               [("survey_id", Json.str "s1"), ("timestamp", Json.num 0)]⟩], []⟩ =
      (⟨500, Json.obj [("error", Json.str "AI failed to produce a valid analysis."),
                       ("raw_response", Json.str "nope")]⟩, ⟨true, false⟩) ∧
    submit_individual_analysis 0 "id-9" (some "nope") "t"
        ⟨[], [⟨"r1", Json.obj [("q", Json.str "a")],
               [("survey_id", Json.str "s1"), ("timestamp", Json.num 0)]⟩], []⟩ =
      (⟨500, Json.obj [("error", Json.str "AI failed to produce a valid analysis.")]⟩,
       (⟨[], [⟨"r1", Json.obj [("q", Json.str "a")],
               [("survey_id", Json.str "s1"), ("timestamp", Json.num 0)]⟩], []⟩ : Store),
       ⟨true, false⟩) :=
  sage_C5_amended "http://h/" 0 "id-9" "nope" "p" "t" "s1"
    ⟨[], [⟨"r1", Json.obj [("q", Json.str "a")],
           [("survey_id", Json.str "s1"), ("timestamp", Json.num 0)]⟩], []⟩
    (by decide) (by decide) (by decide) (by decide) (by decide)

/-- The extraction behaviour per the amended C9: the greedy fenced capture
is parsed first; whenever the fence match is absent or its capture does not
parse, the first-brace-to-last-brace slice is parsed; otherwise `None`. -/
def extractContract (s : String) : Option Json :=
  match (fenceSearch s.toList).bind loadsChars with
  | some v => some v
  | none => fallbackSlice s.toList

/-- C9 counterexample: with two fenced blocks, the greedy capture spans from
the first block's opening brace to the second block's closing brace and does
not parse, the brace-to-brace fallback spans the same text, and
`extract_json_like` returns `none` — although the first fenced block parses
on its own, which the claim says is returned. -/
theorem sage_C9_counterexample :
    extract_json_like
      "```json\n\x7b\"a\": 1\x7d\n```\nAnd another:\n```json\n\x7b\"b\": 2\x7d\n```" = none ∧
    (firstBlockSearch
      ("```json\n\x7b\"a\": 1\x7d\n```\nAnd another:\n```json\n\x7b\"b\": 2\x7d\n```".toList)).bind
      loadsChars = some (Json.obj [("a", Json.num 1)]) := by
  refine ⟨?_, ?_⟩ <;> decide

/-- C9 (amended): `extract_json_like` never fails (it is a total function)
and follows the greedy extraction contract: it returns the parse of the
greedy regex capture — from the opening brace after the first fence to the
last closing brace followed by a closing fence — when that parses; otherwise
the parse of the substring from the first `\x7b` to the last `\x7d` of the
whole input when that parses; otherwise `None`. -/
theorem sage_C9_amended (s : String) : extract_json_like s = extractContract s := by
  simp only [extract_json_like, extractContract]
  rcases h : fenceSearch s.toList with _ | cap
  · simp [h]
  · rcases h2 : loadsChars cap with _ | v <;> simp [h, h2]


end SAGE
